import Mathlib

/-!
# Shallow embedding of the zkMIPS proof-shape pipeline and recursion instruction helpers

This file embeds, in Lean 4, the parts of the repository needed to settle the
frozen claims:

* `crates/prover/src/shapes.rs`: the shape catalog (`ZKMProofShape.generate`,
  `generate_maximal_shapes`, `dummy_vk_map`), the Merkle-height computation
  (`next_power_of_two` / `ilog2`), the verification-key orchestration pipeline
  (`build_vk_map`, `check_shapes`, `build_vk_map_to_file`).
* `crates/recursion/core/src/runtime/instruction.rs`: the recursion instruction
  type and its construction helpers (`mem`, `mem_single`, `mem_block`, ...).

External collaborators (the core/recursion shape configurations, the circuit
builder behind `program_from_shape`, and the STARK `setup` routine) are not
under the given sources; they are modelled from the spec as abstract data
(lists of shapes, and fallible/total functions), as is the `BTreeSet`
container (a sorted, deduplicated list).

The concurrent two-stage pipeline of `build_vk_map` is embedded by making the
order in which work items are completed an explicit parameter: every schedule
of the worker threads yields some permutation of the dispatched `(index,
shape)` list, each item is processed independently (`processShape`), and the
channel-drain aggregation is the fold over that permuted list.
-/

/-- The KoalaBear prime, `2^31 - 2^24 + 1`. -/
def KB_P : Nat := 2130706433

/-- The KoalaBear base field, modelled as integers mod `KB_P`. -/
abbrev KoalaBear := Fin KB_P

/-- `KoalaBear::from_canonical_usize` / `from_canonical_u32`: the canonical
field encoding of a machine integer. -/
def from_canonical (n : Nat) : KoalaBear := ⟨n % KB_P, Nat.mod_lt _ (by decide)⟩

/-- `zkm_stark::DIGEST_SIZE`: the number of field elements in a
verification-key digest (modelled from the spec: a fixed-size vector of field
elements). -/
def DIGEST_SIZE : Nat := 8

/-- A verification-key digest `[KoalaBear; DIGEST_SIZE]`. -/
abbrev Digest := List KoalaBear

/-! ## Merkle-tree height: `usize::next_power_of_two().ilog2()` -/

/-- Fuel-indexed binary logarithm, structurally recursive so that the kernel
can evaluate it. -/
def log2fuel : Nat → Nat → Nat
  | 0, _ => 0
  | fuel + 1, n => if n ≤ 1 then 0 else log2fuel fuel (n / 2) + 1

/-- `usize::ilog2` (floor of the base-2 logarithm; `ilog2 0` never occurs in
the embedded code paths). -/
def ilog2 (n : Nat) : Nat := log2fuel n n

/-- `usize::next_power_of_two`: the smallest power of two greater than or
equal to `n` (returning `1` for `n = 0`), computed as in Rust from the bit
length of `n - 1`. -/
def next_power_of_two (n : Nat) : Nat :=
  if n ≤ 1 then 1 else 2 ^ (ilog2 (n - 1) + 1)

/-- The Merkle-tree height used by `check_shapes` (shapes.rs line 87) and
`build_vk_map` (lines 157 and 176): `count.next_power_of_two().ilog2()`. -/
def merkleHeight (n : Nat) : Nat := ilog2 (next_power_of_two n)


/-! ## Shapes (`crates/prover/src/shapes.rs`) and their `BTreeSet` ordering -/

/-- Lexicographic comparison of pairs, as derived by Rust for tuples. -/
instance (priority := low) prodOrd {α β : Type} [Ord α] [Ord β] : Ord (α × β) :=
  ⟨fun p q => (compare p.1 q.1).then (compare p.2 q.2)⟩

/-- Lexicographic comparison of lists, as implemented by Rust for `Vec`. -/
def listCompare {α : Type} [Ord α] : List α → List α → Ordering
  | [], [] => Ordering.eq
  | [], _ :: _ => Ordering.lt
  | _ :: _, [] => Ordering.gt
  | a :: as, b :: bs =>
    match compare a b with
    | Ordering.eq => listCompare as bs
    | o => o

instance (priority := low) listOrd {α : Type} [Ord α] : Ord (List α) := ⟨listCompare⟩

/-- The boolean total preorder induced by an `Ord` instance; `BTreeSet`
iteration is ascending in this order. -/
def ordLe {α : Type} [Ord α] (a b : α) : Bool := (compare a b).isLE

/-- Sorted insertion (used to model the sorted iteration order of
`BTreeSet`). -/
def insertLe {α : Type} (le : α → α → Bool) (a : α) : List α → List α
  | [] => [a]
  | b :: bs => if le a b then a :: b :: bs else b :: insertLe le a bs

/-- Insertion sort by a boolean order. -/
def sortLe {α : Type} (le : α → α → Bool) : List α → List α
  | [] => []
  | a :: as => insertLe le a (sortLe le as)

/-- `iter.collect::<BTreeSet<_>>()`, viewed as its ascending iteration order:
a deduplicated, sorted list. -/
def btreeOfList {α : Type} [Ord α] [DecidableEq α] (l : List α) : List α :=
  sortLe ordLe l.dedup


/-- `zkm_stark::shape::OrderedShape`: a mapping from table identifier to
log-height, kept as a canonical association list (modelled from the spec; the
defining crate is not under the given sources, only its use sites are). -/
structure OrderedShape where
  inner : List (String × Nat)
deriving DecidableEq, Ord

/-- `ZKMProofShape` (shapes.rs lines 29-35). -/
inductive ZKMProofShape where
  | Recursion : OrderedShape → ZKMProofShape
  | Compress : List OrderedShape → ZKMProofShape
  | Deferred : OrderedShape → ZKMProofShape
  | Shrink : OrderedShape → ZKMProofShape
deriving DecidableEq, Ord

/-- Modelled from the spec: `CoreShapeConfig` (crate `zkm_core_machine`, not
under the given sources) is an external collaborator that, given a degree
bound and a precompile-inclusion flag, yields maximal or combinatorial
per-table log-height shapes.  `all_shapes` is its exhaustive enumeration,
already converted to `OrderedShape` as at shapes.rs lines 313-315 and 350-354. -/
structure CoreShapeConfig where
  all_shapes : List OrderedShape
  maximal_core_shapes : Nat → List OrderedShape
  maximal_core_plus_precompile_shapes : Nat → List OrderedShape

/-- Modelled from the spec: `RecursionShapeConfig` (crate
`zkm_recursion_core`, not under the given sources) is an external collaborator
that, given a batch size, yields all valid k-way `OrderedShape` combinations. -/
structure RecursionShapeConfig where
  get_all_shape_combinations : Nat → List (List OrderedShape)

/-- `Vec::pop().unwrap()` on a shape combination (shapes.rs lines 322, 327):
the last element; the configurations used by the program only produce
non-empty combinations, so the default is never consulted there. -/
def popUnwrap (x : List OrderedShape) : OrderedShape := x.getLast?.getD ⟨[]⟩

/-- `ZKMProofShape::generate` (shapes.rs lines 308-329), as the list of items
of the returned iterator. -/
def ZKMProofShape.generate (core_shape_config : CoreShapeConfig)
    (recursion_shape_config : RecursionShapeConfig)
    (reduce_batch_size : Nat) : List ZKMProofShape :=
  core_shape_config.all_shapes.map ZKMProofShape.Recursion
    ++ (List.range' 1 reduce_batch_size).flatMap (fun batch_size =>
        (recursion_shape_config.get_all_shape_combinations batch_size).map
          ZKMProofShape.Compress)
    ++ (recursion_shape_config.get_all_shape_combinations 1).map
        (fun x => ZKMProofShape.Deferred (popUnwrap x))
    ++ (recursion_shape_config.get_all_shape_combinations 1).map
        (fun x => ZKMProofShape.Shrink (popUnwrap x))

/-- `ZKMProofShape::generate_maximal_shapes` (shapes.rs lines 338-368). -/
def ZKMProofShape.generate_maximal_shapes (core_shape_config : CoreShapeConfig)
    (recursion_shape_config : RecursionShapeConfig)
    (reduce_batch_size : Nat) (no_precompiles : Bool) : List ZKMProofShape :=
  (if no_precompiles then core_shape_config.maximal_core_shapes 21
    else core_shape_config.maximal_core_plus_precompile_shapes 21).map
      ZKMProofShape.Recursion
    ++ (List.range' 1 reduce_batch_size).flatMap (fun batch_size =>
        (recursion_shape_config.get_all_shape_combinations batch_size).map
          ZKMProofShape.Compress)
    ++ (recursion_shape_config.get_all_shape_combinations 1).map
        (fun x => ZKMProofShape.Deferred (popUnwrap x))
    ++ (recursion_shape_config.get_all_shape_combinations 1).map
        (fun x => ZKMProofShape.Shrink (popUnwrap x))

/-- The synthetic digest fabricated for catalog index `i` in dummy mode:
`[KoalaBear::from_canonical_usize(i); DIGEST_SIZE]` (shapes.rs line 377). -/
def dummy_digest (i : Nat) : Digest := List.replicate DIGEST_SIZE (from_canonical i)

/-- `ZKMProofShape::dummy_vk_map` (shapes.rs lines 370-379), as the
association list fed into the `BTreeMap`. -/
def ZKMProofShape.dummy_vk_map (core_shape_config : CoreShapeConfig)
    (recursion_shape_config : RecursionShapeConfig)
    (reduce_batch_size : Nat) : List (Digest × Nat) :=
  (ZKMProofShape.generate core_shape_config recursion_shape_config
      reduce_batch_size).enum.map (fun p => (dummy_digest p.1, p.1))

/-! ## The compress program shapes and the external prover collaborators -/

/-- `ZKMRecursionShape` (crate `zkm_recursion_circuit`, not under the given
sources): the leaf-shape payload, obtained from an `OrderedShape` by
`proof_shape.into()` (shapes.rs line 385); modelled from the spec as a wrapper
of the proof shape. -/
structure ZKMRecursionShape where
  inner : OrderedShape
deriving DecidableEq

/-- `ZKMCompressWithVkeyShape` (shapes.rs lines 389-396): a compress shape
annotated with the Merkle-tree height. -/
structure ZKMCompressWithVkeyShape where
  compress_shape : List OrderedShape
  merkle_tree_height : Nat
deriving DecidableEq

/-- `ZKMDeferredShape::new(vec![proof_shape].into(), height)` (shapes.rs line
387): a single-item shape annotated with the Merkle-tree height; modelled from
the spec (the defining crate is not under the given sources). -/
structure ZKMDeferredShape where
  shapes : List OrderedShape
  height : Nat
deriving DecidableEq

/-- `ZKMCompressProgramShape` (shapes.rs lines 37-43). -/
inductive ZKMCompressProgramShape where
  | Recursion : ZKMRecursionShape → ZKMCompressProgramShape
  | Compress : ZKMCompressWithVkeyShape → ZKMCompressProgramShape
  | Deferred : ZKMDeferredShape → ZKMCompressProgramShape
  | Shrink : ZKMCompressWithVkeyShape → ZKMCompressProgramShape
deriving DecidableEq

/-- `ZKMCompressProgramShape::from_proof_shape` (shapes.rs lines 382-399). -/
def ZKMCompressProgramShape.from_proof_shape (shape : ZKMProofShape)
    (height : Nat) : ZKMCompressProgramShape :=
  match shape with
  | ZKMProofShape.Recursion proof_shape =>
      ZKMCompressProgramShape.Recursion ⟨proof_shape⟩
  | ZKMProofShape.Deferred proof_shape =>
      ZKMCompressProgramShape.Deferred ⟨[proof_shape], height⟩
  | ZKMProofShape.Compress proof_shapes =>
      ZKMCompressProgramShape.Compress ⟨proof_shapes, height⟩
  | ZKMProofShape.Shrink proof_shape =>
      ZKMCompressProgramShape.Shrink ⟨[proof_shape], height⟩

/-- `matches!(shape, ZKMCompressProgramShape::Shrink(_))` (shapes.rs line
192), selecting the shrink setup collaborator over the compress one. -/
def ZKMCompressProgramShape.isShrinkVariant : ZKMCompressProgramShape → Bool
  | ZKMCompressProgramShape.Shrink _ => true
  | _ => false

/-- Modelled from the spec: the external collaborators reached through a
`ZKMProver` value — the circuit builder behind `program_from_shape` (which may
fault on a malformed shape: `none` is a CompilationFault, caught by
`catch_unwind` at the worker boundary), and the `setup` routines of the
compress and shrink provers composed with `hash_koalabear` digest
extraction.  `program_from_shape` is hermetic (a pure function of the shape),
which is what lets one call it from arbitrary worker threads. -/
structure ProverModel (Program : Type) where
  program_from_shape : ZKMCompressProgramShape → Option Program
  compress_setup_digest : Program → Digest
  shrink_setup_digest : Program → Digest

/-! ## The orchestration pipeline (`build_vk_map`, `check_shapes`) -/

/-- The full catalog `ZKMProofShape::generate(..).collect::<BTreeSet<_>>()`
(shapes.rs lines 170-172), in ascending iteration order. -/
def all_shapes_list (core_shape_config : CoreShapeConfig)
    (recursion_shape_config : RecursionShapeConfig)
    (reduce_batch_size : Nat) : List ZKMProofShape :=
  btreeOfList (ZKMProofShape.generate core_shape_config recursion_shape_config
    reduce_batch_size)

/-- The dispatched work list (shapes.rs lines 239-243): the catalog enumerated
in iteration order, restricted to the explicit index set when one is given. -/
def subset_shapes (catalog : List ZKMProofShape)
    (indices : Option (List Nat)) : List (Nat × ZKMProofShape) :=
  catalog.enum.filter (fun iw =>
    match indices with
    | none => true
    | some s => s.contains iw.1)

/-- The digest a single shape contributes when processed in isolation, i.e.
the composite of pipeline stage 1 (shapes.rs lines 187-207: compile the
program shape, `none` on a compilation fault) and stage 2 (lines 210-236: run
the category-appropriate setup and extract the verification-key digest). -/
def shapeDigest {Program : Type} (P : ProverModel Program) (height : Nat)
    (shape : ZKMProofShape) : Option Digest :=
  let pshape := ZKMCompressProgramShape.from_proof_shape shape height
  match P.program_from_shape pshape with
  | none => none
  | some program =>
      some (if pshape.isShrinkVariant then P.shrink_setup_digest program
        else P.compress_setup_digest program)

/-- One unit of pipeline work on an `(index, shape)` item: either the fault
index sent over the panic channel (shapes.rs line 202) or the digest sent over
the vk channel (line 233). -/
def processShape {Program : Type} (P : ProverModel Program) (height : Nat)
    (iw : Nat × ZKMProofShape) : Sum Nat Digest :=
  match shapeDigest P height iw.2 with
  | none => Sum.inl iw.1
  | some d => Sum.inr d

/-- `vk_rx.iter().collect::<BTreeSet<_>>()` (shapes.rs line 258): the set of
digests that arrived over the channel. -/
def vk_digest_set (results : List (Sum Nat Digest)) : Finset Digest :=
  (results.filterMap Sum.getRight?).toFinset

/-- `panic_rx.iter().collect::<Vec<_>>()` (shapes.rs line 260): the fault
indices that arrived over the channel. -/
def panic_index_list (results : List (Sum Nat Digest)) : List Nat :=
  results.filterMap Sum.getLeft?

/-- `build_vk_map` (shapes.rs lines 134-273), with the completion order of the
work items exposed as the `order` parameter: a run with any number of compiler
and setup workers under any thread scheduling completes the dispatched items
in some permutation of the dispatch list, and the channel drains collect the
per-item outcomes in that order. -/
def build_vk_map_order {Program : Type} (P : ProverModel Program)
    (core_shape_config : CoreShapeConfig)
    (recursion_shape_config : RecursionShapeConfig)
    (reduce_batch_size : Nat) (dummy : Bool)
    (order : List (Nat × ZKMProofShape)) :
    Finset Digest × List Nat × Nat :=
  if dummy then
    let dummy_set := ((ZKMProofShape.dummy_vk_map core_shape_config
      recursion_shape_config reduce_batch_size).map Prod.fst).toFinset
    (dummy_set, [], merkleHeight dummy_set.card)
  else
    let num_shapes := (all_shapes_list core_shape_config recursion_shape_config
      reduce_batch_size).length
    let height := merkleHeight num_shapes
    let results := order.map (processShape P height)
    (vk_digest_set results, panic_index_list results, height)

/-- `build_vk_map` run under the canonical (dispatch-order) schedule. -/
def build_vk_map {Program : Type} (P : ProverModel Program)
    (core_shape_config : CoreShapeConfig)
    (recursion_shape_config : RecursionShapeConfig)
    (reduce_batch_size : Nat) (dummy : Bool)
    (indices : Option (List Nat)) :
    Finset Digest × List Nat × Nat :=
  build_vk_map_order P core_shape_config recursion_shape_config
    reduce_batch_size dummy
    (subset_shapes (all_shapes_list core_shape_config recursion_shape_config
      reduce_batch_size) indices)

/-- `check_shapes` (shapes.rs lines 61-132): compile every maximal shape and
report `true` exactly when the panic channel stays empty (line 128).  The
returned boolean does not depend on the order in which the workers drain the
queue, so it is stated over the dispatch list directly. -/
def check_shapes {Program : Type} (P : ProverModel Program)
    (core_shape_config : CoreShapeConfig)
    (recursion_shape_config : RecursionShapeConfig)
    (reduce_batch_size : Nat) (no_precompiles : Bool) : Bool :=
  let all_maximal_shapes := btreeOfList (ZKMProofShape.generate_maximal_shapes
    core_shape_config recursion_shape_config reduce_batch_size no_precompiles)
  let height := merkleHeight all_maximal_shapes.length
  all_maximal_shapes.all (fun shape =>
    (P.program_from_shape
      (ZKMCompressProgramShape.from_proof_shape shape height)).isSome)

/-- The index restriction computed by `build_vk_map_to_file` (shapes.rs line
293): `range_start.and_then(|start| range_end.map(|end| (start..end).collect()))`. -/
def range_indices (range_start range_end : Option Nat) : Option (List Nat) :=
  range_start.bind (fun start =>
    range_end.map (fun e => List.range' start (e - start)))

/-- `build_vk_map_to_file` (shapes.rs lines 275-305), up to the file-system
effects (serialization of the digest-to-index map is out of scope): the
orchestration it performs is `build_vk_map` under the range restriction. -/
def build_vk_map_to_file {Program : Type} (P : ProverModel Program)
    (core_shape_config : CoreShapeConfig)
    (recursion_shape_config : RecursionShapeConfig)
    (reduce_batch_size : Nat) (dummy : Bool)
    (range_start range_end : Option Nat) :
    Finset Digest × List Nat × Nat :=
  build_vk_map P core_shape_config recursion_shape_config reduce_batch_size
    dummy (range_indices range_start range_end)

/-! ## Recursion instruction set (`crates/recursion/core/src/runtime/instruction.rs`) -/

/-- Extension-field degree `D` (modelled from the spec: the fixed-degree
extension of KoalaBear has degree 4). -/
def D : Nat := 4

/-- Poseidon2 permutation width `WIDTH` (modelled from the spec: the fixed
width of the cryptographic permutation; 16 field elements). -/
def WIDTH : Nat := 16

/-- `Address<F>`: a typed index into the flat field-valued register file
(modelled from the spec; the defining module is not under the given sources,
only its use sites in instruction.rs are). -/
structure Address (F : Type) where
  a : F
deriving DecidableEq

/-- `Block<F>`: a fixed block of `D` field elements (modelled from the spec). -/
structure Block (F : Type) where
  vals : List F
deriving DecidableEq

/-- `Block::from(val: F)`: the single-felt conversion used by `mem_single`,
placing the value first and padding with zeros (modelled from the spec). -/
def Block.ofFelt (val : KoalaBear) : Block KoalaBear :=
  ⟨[val, from_canonical 0, from_canonical 0, from_canonical 0]⟩

/-- `MemAccessKind`: a write defines a value, a read consumes one unit of
multiplicity (modelled from the spec). -/
inductive MemAccessKind where
  | Read : MemAccessKind
  | Write : MemAccessKind
deriving DecidableEq

/-- `MemIo<V>` wrapper (field layout visible from `mem_block`,
instruction.rs lines 134-139). -/
structure MemIo (V : Type) where
  inner : V
deriving DecidableEq

/-- `MemInstr<F>` (fields visible from `mem_block`, instruction.rs lines
134-139). -/
structure MemInstr (F : Type) where
  addrs : MemIo (Address F)
  vals : MemIo (Block F)
  mult : F
  kind : MemAccessKind
deriving DecidableEq

/-- `BaseAluOpcode` (modelled from the spec: field add/sub/mul/div). -/
inductive BaseAluOpcode where
  | AddF | SubF | MulF | DivF
deriving DecidableEq

/-- `ExtAluOpcode` (modelled from the spec: extension-field add/sub/mul/div). -/
inductive ExtAluOpcode where
  | AddE | SubE | MulE | DivE
deriving DecidableEq

/-- `BaseAluIo<V>` (fields visible from `base_alu`, instruction.rs 80-84). -/
structure BaseAluIo (V : Type) where
  out : V
  in1 : V
  in2 : V
deriving DecidableEq

/-- `BaseAluInstr<F>` (instruction.rs 77-85). -/
structure BaseAluInstr (F : Type) where
  opcode : BaseAluOpcode
  mult : F
  addrs : BaseAluIo (Address F)
deriving DecidableEq

/-- `ExtAluInstr<F>` (instruction.rs 95-103). -/
structure ExtAluInstr (F : Type) where
  opcode : ExtAluOpcode
  mult : F
  addrs : BaseAluIo (Address F)
deriving DecidableEq

/-- `Poseidon2Io<V>` (instruction.rs 149-152). -/
structure Poseidon2Io (V : Type) where
  output : List V
  input : List V
deriving DecidableEq

/-- `Poseidon2Instr<F>` (instruction.rs 147-153); the source arrays of length
`WIDTH` are modelled as lists. -/
structure Poseidon2Instr (F : Type) where
  mults : List F
  addrs : Poseidon2Io (Address F)
deriving DecidableEq

/-- `SelectIo<V>` (instruction.rs 169-175). -/
structure SelectIo (V : Type) where
  bit : V
  out1 : V
  out2 : V
  in1 : V
  in2 : V
deriving DecidableEq

/-- `SelectInstr<F>` (instruction.rs 166-176). -/
structure SelectInstr (F : Type) where
  mult1 : F
  mult2 : F
  addrs : SelectIo (Address F)
deriving DecidableEq

/-- `ExpReverseBitsIo<V>` (instruction.rs 187-192). -/
structure ExpReverseBitsIo (F : Type) where
  base : Address F
  exp : List (Address F)
  result : Address F
deriving DecidableEq

/-- `ExpReverseBitsInstr<F>` (instruction.rs 185-193). -/
structure ExpReverseBitsInstr (F : Type) where
  mult : F
  addrs : ExpReverseBitsIo F
deriving DecidableEq

/-- `HintBitsInstr<F>` (instruction.rs 26-32). -/
structure HintBitsInstr (F : Type) where
  output_addrs_mults : List (Address F × F)
  input_addr : Address F
deriving DecidableEq

/-- `PrintInstr<F>` (instruction.rs 34-38). -/
inductive FieldEltType where
  | Base : FieldEltType
  | Extension : FieldEltType
deriving DecidableEq

/-- `PrintInstr<F>` (instruction.rs 34-38). -/
structure PrintInstr (F : Type) where
  field_elt_type : FieldEltType
  addr : Address F
deriving DecidableEq

/-- `HintAddCurveInstr<F>` (instruction.rs 40-48). -/
structure HintAddCurveInstr (F : Type) where
  output_x_addrs_mults : List (Address F × F)
  output_y_addrs_mults : List (Address F × F)
  input1_x_addrs : List (Address F)
  input1_y_addrs : List (Address F)
  input2_x_addrs : List (Address F)
  input2_y_addrs : List (Address F)
deriving DecidableEq

/-- `HintInstr<F>` (instruction.rs 50-54). -/
structure HintInstr (F : Type) where
  output_addrs_mults : List (Address F × F)
deriving DecidableEq

/-- `HintExt2FeltsInstr<F>` (instruction.rs 56-62); the source array of length
`D` is modelled as a list. -/
structure HintExt2FeltsInstr (F : Type) where
  output_addrs_mults : List (Address F × F)
  input_addr : Address F
deriving DecidableEq

/-- `FriFoldBaseIo` and friends (fields visible from `fri_fold`,
instruction.rs 209-234). -/
structure FriFoldBaseIo (F : Type) where
  x : Address F
deriving DecidableEq

structure FriFoldExtSingleIo (F : Type) where
  z : Address F
  alpha : Address F
deriving DecidableEq

structure FriFoldExtVecIo (F : Type) where
  mat_opening : List (Address F)
  ps_at_z : List (Address F)
  alpha_pow_input : List (Address F)
  ro_input : List (Address F)
  alpha_pow_output : List (Address F)
  ro_output : List (Address F)
deriving DecidableEq

/-- `FriFoldInstr<F>` (instruction.rs 209-234). -/
structure FriFoldInstr (F : Type) where
  base_single_addrs : FriFoldBaseIo F
  ext_single_addrs : FriFoldExtSingleIo F
  ext_vec_addrs : FriFoldExtVecIo F
  alpha_pow_mults : List F
  ro_mults : List F
deriving DecidableEq

/-- `BatchFRIInstr<F>` components (fields visible from `batch_fri`,
instruction.rs 245-255). -/
structure BatchFRIBaseVecIo (F : Type) where
  p_at_x : List (Address F)
deriving DecidableEq

structure BatchFRIExtSingleIo (F : Type) where
  acc : Address F
deriving DecidableEq

structure BatchFRIExtVecIo (F : Type) where
  p_at_z : List (Address F)
  alpha_pow : List (Address F)
deriving DecidableEq

/-- `BatchFRIInstr<F>` (instruction.rs 245-255). -/
structure BatchFRIInstr (F : Type) where
  base_vec_addrs : BatchFRIBaseVecIo F
  ext_single_addrs : BatchFRIExtSingleIo F
  ext_vec_addrs : BatchFRIExtVecIo F
  acc_mult : F
deriving DecidableEq

/-- `CommitPublicValuesInstr<F>` (instruction.rs 264-266):
`RecursionPublicValues<Address<F>>` is a fixed positional schema of addresses
(modelled from the spec as the positional list of those addresses). -/
structure CommitPublicValuesInstr (F : Type) where
  pv_addrs : List (Address F)
deriving DecidableEq

/-- `Instruction<F>` (instruction.rs lines 8-24).  The heap indirection
(`Box`) of the large variants is immaterial to the values. -/
inductive Instruction (F : Type) where
  | BaseAlu : BaseAluInstr F → Instruction F
  | ExtAlu : ExtAluInstr F → Instruction F
  | Mem : MemInstr F → Instruction F
  | Poseidon2 : Poseidon2Instr F → Instruction F
  | Select : SelectInstr F → Instruction F
  | ExpReverseBitsLen : ExpReverseBitsInstr F → Instruction F
  | HintBits : HintBitsInstr F → Instruction F
  | HintAddCurve : HintAddCurveInstr F → Instruction F
  | FriFold : FriFoldInstr F → Instruction F
  | BatchFRI : BatchFRIInstr F → Instruction F
  | Print : PrintInstr F → Instruction F
  | HintExt2Felts : HintExt2FeltsInstr F → Instruction F
  | CommitPublicValues : CommitPublicValuesInstr F → Instruction F
  | Hint : HintInstr F → Instruction F
deriving DecidableEq

/-- `mem_block` (instruction.rs lines 128-140), at `F = KoalaBear`. -/
def mem_block (kind : MemAccessKind) (mult addr : Nat) (val : Block KoalaBear) :
    Instruction KoalaBear :=
  Instruction.Mem
    { addrs := ⟨⟨from_canonical addr⟩⟩
      vals := ⟨val⟩
      mult := from_canonical mult
      kind := kind }

/-- `mem_single` (instruction.rs lines 110-117). -/
def mem_single (kind : MemAccessKind) (mult addr : Nat) (val : KoalaBear) :
    Instruction KoalaBear :=
  mem_block kind mult addr (Block.ofFelt val)

/-- `mem` (instruction.rs line 106). -/
def mem (kind : MemAccessKind) (mult addr val : Nat) : Instruction KoalaBear :=
  mem_single kind mult addr (from_canonical val)


/-! ## Variant counters and concrete test fixtures -/

/-- Whether a catalog entry is a `Recursion` (leaf) shape. -/
def isRecursionShape : ZKMProofShape → Bool
  | ZKMProofShape.Recursion _ => true
  | _ => false

/-- Whether a catalog entry is a `Compress` shape. -/
def isCompressShape : ZKMProofShape → Bool
  | ZKMProofShape.Compress _ => true
  | _ => false

/-- Whether a catalog entry is a `Deferred` shape. -/
def isDeferredShape : ZKMProofShape → Bool
  | ZKMProofShape.Deferred _ => true
  | _ => false

/-- Whether a catalog entry is a `Shrink` shape. -/
def isShrinkShape : ZKMProofShape → Bool
  | ZKMProofShape.Shrink _ => true
  | _ => false

/-- A one-table shape of log-height `k`, used as concrete test data. -/
def tshape (k : Nat) : OrderedShape := ⟨[("", k)]⟩

/-- A concrete core configuration with two leaf shapes. -/
def wCore : CoreShapeConfig := ⟨[tshape 0, tshape 1], fun _ => [], fun _ => []⟩

/-- A concrete recursion configuration with no shape combinations. -/
def emptyRec : RecursionShapeConfig := ⟨fun _ => []⟩

/-- A concrete prover collaborator that compiles every shape and maps every
program to one constant digest. -/
def constProver : ProverModel Unit :=
  ⟨fun _ => some (), fun _ => dummy_digest 7, fun _ => dummy_digest 7⟩

/-- A concrete prover collaborator that faults on the program shape of the
leaf shape `tshape 0` (at Merkle height 1) and compiles everything else. -/
def faultProver : ProverModel Unit :=
  ⟨fun ps =>
      if ps = ZKMCompressProgramShape.from_proof_shape
          (ZKMProofShape.Recursion (tshape 0)) 1 then none else some (),
    fun _ => dummy_digest 7, fun _ => dummy_digest 8⟩

/-- A concrete core configuration with four leaf shapes (worked example of
the spec). -/
def c7Core : CoreShapeConfig :=
  ⟨[tshape 1, tshape 2, tshape 3, tshape 4], fun _ => [], fun _ => []⟩

/-- A concrete recursion configuration with exactly two one-way shape
combinations (worked example of the spec). -/
def c7Rec : RecursionShapeConfig :=
  ⟨fun k => if k = 1 then [[tshape 10], [tshape 11]] else []⟩

/-! ## Helper lemmas -/

theorem log2fuel_eq_log (fuel n : Nat) (h : n ≤ fuel) : log2fuel fuel n = Nat.log 2 n := by
  induction fuel generalizing n with
  | zero =>
    interval_cases n
    simp [log2fuel]
  | succ fuel ih =>
    rw [log2fuel]
    by_cases h1 : n ≤ 1
    · rw [if_pos h1]
      interval_cases n <;> simp
    · rw [if_neg h1]
      push_neg at h1
      have h2 : 2 ≤ n := h1
      have hdiv : n / 2 ≤ fuel := by
        have : n / 2 < n := Nat.div_lt_self (by omega) (by omega)
        omega
      rw [ih _ hdiv]
      rw [Nat.log_div_base 2 n]
      have := Nat.log_pos (show (1 : Nat) < 2 by omega) h2
      omega

theorem ilog2_eq_log (n : Nat) : ilog2 n = Nat.log 2 n :=
  log2fuel_eq_log n n le_rfl

/-- `next_power_of_two` is `2 ^ clog2 n` for positive `n`. -/
theorem next_power_of_two_eq (n : Nat) (h : 1 ≤ n) :
    next_power_of_two n = 2 ^ Nat.clog 2 n := by
  unfold next_power_of_two
  by_cases h1 : n ≤ 1
  · have : n = 1 := by omega
    subst this
    simp [Nat.clog_one_right]
  · rw [if_neg h1]
    push_neg at h1
    rw [ilog2_eq_log]
    congr 1
    have hne : n - 1 ≠ 0 := by omega
    have hub : n ≤ 2 ^ (Nat.log 2 (n - 1) + 1) := by
      have := Nat.lt_pow_succ_log_self (b := 2) (by omega) (n - 1)
      omega
    have hlb : 2 ^ Nat.log 2 (n - 1) < n := by
      have := Nat.pow_log_le_self 2 hne
      omega
    have hle : Nat.clog 2 n ≤ Nat.log 2 (n - 1) + 1 :=
      (Nat.le_pow_iff_clog_le (by omega)).mp hub
    have hlt : Nat.log 2 (n - 1) < Nat.clog 2 n :=
      (Nat.pow_lt_iff_lt_clog (by omega)).mp hlb
    omega

/-- For positive counts, the height computed by the code is exactly the
ceiling of the base-2 logarithm. -/
theorem merkleHeight_eq_clog (n : Nat) (h : 1 ≤ n) :
    merkleHeight n = Nat.clog 2 n := by
  rw [merkleHeight, next_power_of_two_eq n h, ilog2_eq_log, Nat.log_pow (by omega)]

theorem merkleHeight_eq_clog_max (n : Nat) :
    merkleHeight n = Nat.clog 2 (max 1 n) := by
  rcases Nat.eq_zero_or_pos n with h | h
  · subst h
    simp [merkleHeight, next_power_of_two, ilog2, log2fuel, Nat.clog_one_right]
  · rw [merkleHeight_eq_clog n h, Nat.max_eq_right h]

theorem insertLe_perm {α : Type} (le : α → α → Bool) (a : α) (l : List α) :
    (insertLe le a l).Perm (a :: l) := by
  induction l with
  | nil => exact List.Perm.refl _
  | cons b bs ih =>
    rw [insertLe]
    by_cases h : le a b = true
    · rw [if_pos h]
    · rw [if_neg h]
      exact ((ih.cons b).trans (List.Perm.swap a b bs))

theorem sortLe_perm {α : Type} (le : α → α → Bool) (l : List α) :
    (sortLe le l).Perm l := by
  induction l with
  | nil => exact List.Perm.refl _
  | cons a as ih => exact (insertLe_perm le a (sortLe le as)).trans (ih.cons a)

theorem btreeOfList_perm_dedup {α : Type} [Ord α] [DecidableEq α] (l : List α) :
    (btreeOfList l).Perm l.dedup := sortLe_perm _ _

theorem mem_btreeOfList {α : Type} [Ord α] [DecidableEq α] {a : α} {l : List α} :
    a ∈ btreeOfList l ↔ a ∈ l := by
  rw [(btreeOfList_perm_dedup l).mem_iff, List.mem_dedup]

theorem btreeOfList_length {α : Type} [Ord α] [DecidableEq α] (l : List α) :
    (btreeOfList l).length = l.dedup.length :=
  (btreeOfList_perm_dedup l).length_eq

theorem btreeOfList_nodup {α : Type} [Ord α] [DecidableEq α] (l : List α) :
    (btreeOfList l).Nodup :=
  ((btreeOfList_perm_dedup l).nodup_iff).mpr (List.nodup_dedup l)
theorem perm_toFinset {α : Type} [DecidableEq α] {l1 l2 : List α}
    (h : l1.Perm l2) : l1.toFinset = l2.toFinset :=
  Finset.ext fun a => by simp only [List.mem_toFinset, h.mem_iff]

theorem processShape_getRight {Program : Type} (P : ProverModel Program)
    (height : Nat) (iw : Nat × ZKMProofShape) :
    (processShape P height iw).getRight? = shapeDigest P height iw.2 := by
  unfold processShape
  cases shapeDigest P height iw.2 <;> rfl

theorem processShape_getLeft {Program : Type} (P : ProverModel Program)
    (height : Nat) (iw : Nat × ZKMProofShape) (i : Nat) :
    (processShape P height iw).getLeft? = some i ↔
      shapeDigest P height iw.2 = none ∧ iw.1 = i := by
  unfold processShape
  cases hd : shapeDigest P height iw.2 <;>
    simp [Sum.getLeft?, eq_comm]

theorem vk_digest_set_map {Program : Type} (P : ProverModel Program)
    (height : Nat) (l : List (Nat × ZKMProofShape)) :
    vk_digest_set (l.map (processShape P height)) =
      (l.filterMap (fun iw => shapeDigest P height iw.2)).toFinset := by
  unfold vk_digest_set
  rw [List.filterMap_map]
  have he : (Sum.getRight? ∘ processShape P height) =
      fun iw : Nat × ZKMProofShape => shapeDigest P height iw.2 :=
    funext fun iw => processShape_getRight P height iw
  rw [he]

theorem mem_panic_index_list {Program : Type} (P : ProverModel Program)
    (height : Nat) (l : List (Nat × ZKMProofShape)) (i : Nat) :
    i ∈ panic_index_list (l.map (processShape P height)) ↔
      ∃ iw ∈ l, iw.1 = i ∧ shapeDigest P height iw.2 = none := by
  unfold panic_index_list
  rw [List.filterMap_map, List.mem_filterMap]
  constructor
  · rintro ⟨iw, hmem, hq⟩
    rw [Function.comp_apply, processShape_getLeft] at hq
    exact ⟨iw, hmem, hq.2, hq.1⟩
  · rintro ⟨iw, hmem, hi, hnone⟩
    refine ⟨iw, hmem, ?_⟩
    rw [Function.comp_apply, processShape_getLeft]
    exact ⟨hnone, hi⟩

theorem filterMap_filter_eq {α β : Type} (f : α → Option β)
    (p : α → Bool) (l : List α) (h : ∀ x ∈ l, p x = false → f x = none) :
    (l.filter p).filterMap f = l.filterMap f := by
  induction l with
  | nil => rfl
  | cons a as ih =>
    have ih2 := ih (fun x hx hp => h x (List.mem_cons_of_mem a hx) hp)
    rw [List.filter_cons]
    by_cases hp : p a = true
    · rw [if_pos hp, List.filterMap_cons, List.filterMap_cons, ih2]
    · have hpf : p a = false := by
        revert hp; cases p a <;> simp
      rw [if_neg (by simp [hpf]), List.filterMap_cons,
        h a (List.mem_cons_self a as) hpf, ih2]

theorem filterMap_length_of_ne_none {α β : Type} (f : α → Option β)
    (l : List α) (h : ∀ x ∈ l, f x ≠ none) :
    (l.filterMap f).length = l.length := by
  induction l with
  | nil => rfl
  | cons a as ih =>
    have ih2 := ih (fun x hx => h x (List.mem_cons_of_mem a hx))
    rw [List.filterMap_cons]
    cases hf : f a with
    | none => exact absurd hf (h a (List.mem_cons_self a as))
    | some b => simp [ih2]

theorem dummy_keys_eq (core_shape_config : CoreShapeConfig)
    (recursion_shape_config : RecursionShapeConfig) (reduce_batch_size : Nat) :
    (ZKMProofShape.dummy_vk_map core_shape_config recursion_shape_config
        reduce_batch_size).map Prod.fst =
      (List.range (ZKMProofShape.generate core_shape_config
        recursion_shape_config reduce_batch_size).length).map dummy_digest := by
  unfold ZKMProofShape.dummy_vk_map
  rw [List.map_map]
  rw [show ((Prod.fst ∘ fun p : Nat × ZKMProofShape =>
      (dummy_digest p.1, p.1))) = dummy_digest ∘ Prod.fst from rfl]
  rw [← List.map_map, List.enum_map_fst]

theorem dummy_digest_inj {i j : Nat} (hi : i < KB_P) (hj : j < KB_P)
    (h : dummy_digest i = dummy_digest j) : i = j := by
  unfold dummy_digest at h
  have hval := List.replicate_right_injective
    (show DIGEST_SIZE ≠ 0 by decide) h
  have h2 : i % KB_P = j % KB_P := congrArg Fin.val hval
  rwa [Nat.mod_eq_of_lt hi, Nat.mod_eq_of_lt hj] at h2

/-! ## Claims -/

/-- C10: for every access kind, multiplicity, address and u32 value, the
instruction-construction helpers agree — `mem(kind, mult, addr, val)` equals
`mem_single(kind, mult, addr, from_canonical_u32(val))` equals
`mem_block(kind, mult, addr, Block::from(from_canonical_u32(val)))` — and each
produces an `Instruction::Mem` whose address and multiplicity fields are the
canonical field encodings of the given integers. -/
theorem mem_instruction_helpers_agree (kind : MemAccessKind)
    (mult addr val : Nat) :
    mem kind mult addr val = mem_single kind mult addr (from_canonical val) ∧
    mem_single kind mult addr (from_canonical val) =
      mem_block kind mult addr (Block.ofFelt (from_canonical val)) ∧
    mem kind mult addr val = Instruction.Mem
      { addrs := ⟨⟨from_canonical addr⟩⟩
        vals := ⟨Block.ofFelt (from_canonical val)⟩
        mult := from_canonical mult
        kind := kind } :=
  ⟨rfl, rfl, rfl⟩

/-- C5: for every shape count `n ≥ 1` the Merkle-tree height
`n.next_power_of_two().ilog2()` computed by `check_shapes` (shapes.rs line 87)
and `build_vk_map` (line 176) equals `ceil(log2 n)` (`Nat.clog 2 n`); in
particular the height is 0 for count 1, and 3 for counts 5 and 8. -/
theorem merkle_height_formula (n : Nat) (h : 1 ≤ n) :
    merkleHeight n = Nat.clog 2 n ∧
    merkleHeight 1 = 0 ∧ merkleHeight 5 = 3 ∧ merkleHeight 8 = 3 :=
  ⟨merkleHeight_eq_clog n h, by decide, by decide, by decide⟩

/-- Witness for C5 at the concrete count 5. -/
theorem merkle_height_formula_witness :
    1 ≤ 5 ∧ (merkleHeight 5 = Nat.clog 2 5 ∧
      merkleHeight 1 = 0 ∧ merkleHeight 5 = 3 ∧ merkleHeight 8 = 3) :=
  ⟨by decide, merkle_height_formula 5 (by decide)⟩

/-- C9: in `build_vk_map_to_file`, an index restriction is applied only when
both `range_start` and `range_end` are provided (as the half-open range
`start..end`, i.e. `List.range' start (end - start)`); if either one is
`none`, the restriction is silently ignored and the full catalog is processed
(the run coincides with an unrestricted `build_vk_map`). -/
theorem build_vk_map_to_file_range_restriction {Program : Type}
    (P : ProverModel Program) (core_shape_config : CoreShapeConfig)
    (recursion_shape_config : RecursionShapeConfig)
    (reduce_batch_size : Nat) (dummy : Bool)
    (range_start range_end : Option Nat) :
    (range_start = none ∨ range_end = none →
      build_vk_map_to_file P core_shape_config recursion_shape_config
          reduce_batch_size dummy range_start range_end =
        build_vk_map P core_shape_config recursion_shape_config
          reduce_batch_size dummy none) ∧
    (∀ s e, build_vk_map_to_file P core_shape_config recursion_shape_config
        reduce_batch_size dummy (some s) (some e) =
      build_vk_map P core_shape_config recursion_shape_config
        reduce_batch_size dummy (some (List.range' s (e - s)))) := by
  constructor
  · rintro (h | h) <;> subst h
    · rfl
    · cases range_start <;> rfl
  · intro s e
    rfl

/-- Witness for C9: a run with `range_start = none` but `range_end = some 3`
ignores the restriction. -/
theorem build_vk_map_to_file_range_restriction_witness :
    ((none : Option Nat) = none ∨ (some 3 : Option Nat) = none) ∧
    build_vk_map_to_file constProver wCore emptyRec 1 false none (some 3) =
      build_vk_map constProver wCore emptyRec 1 false none :=
  ⟨Or.inl rfl,
    (build_vk_map_to_file_range_restriction constProver wCore emptyRec 1 false
      none (some 3)).1 (Or.inl rfl)⟩

/-- C8: `check_shapes` returns `true` if and only if the compilation of every
maximal shape in the catalog succeeds, and returns `false` exactly when the
set of shapes whose compilation faults is non-empty. -/
theorem check_shapes_true_iff_all_compile {Program : Type}
    (P : ProverModel Program) (core_shape_config : CoreShapeConfig)
    (recursion_shape_config : RecursionShapeConfig)
    (reduce_batch_size : Nat) (no_precompiles : Bool) :
    (check_shapes P core_shape_config recursion_shape_config reduce_batch_size
        no_precompiles = true ↔
      ∀ shape ∈ ZKMProofShape.generate_maximal_shapes core_shape_config
          recursion_shape_config reduce_batch_size no_precompiles,
        (P.program_from_shape (ZKMCompressProgramShape.from_proof_shape shape
          (merkleHeight (btreeOfList (ZKMProofShape.generate_maximal_shapes
            core_shape_config recursion_shape_config reduce_batch_size
            no_precompiles)).length))).isSome = true) ∧
    (check_shapes P core_shape_config recursion_shape_config reduce_batch_size
        no_precompiles = false ↔
      ∃ shape ∈ ZKMProofShape.generate_maximal_shapes core_shape_config
          recursion_shape_config reduce_batch_size no_precompiles,
        (P.program_from_shape (ZKMCompressProgramShape.from_proof_shape shape
          (merkleHeight (btreeOfList (ZKMProofShape.generate_maximal_shapes
            core_shape_config recursion_shape_config reduce_batch_size
            no_precompiles)).length))).isSome = false) := by
  have key : check_shapes P core_shape_config recursion_shape_config
      reduce_batch_size no_precompiles = true ↔
      ∀ shape ∈ ZKMProofShape.generate_maximal_shapes core_shape_config
          recursion_shape_config reduce_batch_size no_precompiles,
        (P.program_from_shape (ZKMCompressProgramShape.from_proof_shape shape
          (merkleHeight (btreeOfList (ZKMProofShape.generate_maximal_shapes
            core_shape_config recursion_shape_config reduce_batch_size
            no_precompiles)).length))).isSome = true := by
    unfold check_shapes
    rw [List.all_eq_true]
    constructor
    · intro H shape hs
      exact H shape (mem_btreeOfList.mpr hs)
    · intro H shape hs
      exact H shape (mem_btreeOfList.mp hs)
  refine ⟨key, ?_⟩
  rw [← Bool.not_eq_true, key]
  push_neg
  simp only [Bool.not_eq_true]

/-- C1: for a fixed configuration, the digest set returned by `build_vk_map`
is order-independent — a run whose work items complete in any permutation of
the dispatch order (which subsumes any number of compiler/setup workers and
any thread scheduling) returns the same digest set, and that set equals the
set of digests of the individually-processed shapes. -/
theorem build_vk_map_digest_set_order_independent {Program : Type}
    (P : ProverModel Program) (core_shape_config : CoreShapeConfig)
    (recursion_shape_config : RecursionShapeConfig)
    (reduce_batch_size : Nat) (indices : Option (List Nat))
    (order : List (Nat × ZKMProofShape))
    (hsched : order.Perm (subset_shapes (all_shapes_list core_shape_config
      recursion_shape_config reduce_batch_size) indices)) :
    (build_vk_map_order P core_shape_config recursion_shape_config
        reduce_batch_size false order).1 =
      (build_vk_map P core_shape_config recursion_shape_config
        reduce_batch_size false indices).1 ∧
    (build_vk_map P core_shape_config recursion_shape_config reduce_batch_size
        false indices).1 =
      ((subset_shapes (all_shapes_list core_shape_config
          recursion_shape_config reduce_batch_size) indices).filterMap
        (fun iw => shapeDigest P (merkleHeight (all_shapes_list
          core_shape_config recursion_shape_config reduce_batch_size).length)
          iw.2)).toFinset := by
  have h1 : (build_vk_map_order P core_shape_config recursion_shape_config
      reduce_batch_size false order).1 =
      (order.filterMap (fun iw => shapeDigest P (merkleHeight (all_shapes_list
        core_shape_config recursion_shape_config reduce_batch_size).length)
        iw.2)).toFinset :=
    vk_digest_set_map P _ order
  have h2 : (build_vk_map P core_shape_config recursion_shape_config
      reduce_batch_size false indices).1 =
      ((subset_shapes (all_shapes_list core_shape_config
          recursion_shape_config reduce_batch_size) indices).filterMap
        (fun iw => shapeDigest P (merkleHeight (all_shapes_list
          core_shape_config recursion_shape_config reduce_batch_size).length)
          iw.2)).toFinset :=
    vk_digest_set_map P _ _
  refine ⟨?_, h2⟩
  rw [h1, h2]
  exact perm_toFinset (hsched.filterMap _)

/-- Witness for C1: a two-shape catalog processed in reverse dispatch order
yields the same digest set. -/
theorem build_vk_map_digest_set_order_independent_witness :
    ((subset_shapes (all_shapes_list wCore emptyRec 1) none).reverse.Perm
      (subset_shapes (all_shapes_list wCore emptyRec 1) none)) ∧
    ((build_vk_map_order constProver wCore emptyRec 1 false
        (subset_shapes (all_shapes_list wCore emptyRec 1) none).reverse).1 =
      (build_vk_map constProver wCore emptyRec 1 false none).1 ∧
    (build_vk_map constProver wCore emptyRec 1 false none).1 =
      ((subset_shapes (all_shapes_list wCore emptyRec 1) none).filterMap
        (fun iw => shapeDigest constProver
          (merkleHeight (all_shapes_list wCore emptyRec 1).length)
          iw.2)).toFinset) :=
  ⟨by decide,
    build_vk_map_digest_set_order_independent constProver wCore emptyRec 1
      none _ (by decide)⟩

/-- C2: in `build_vk_map`, if compilation faults exactly for the shapes at
index set `K` (a subset of the dispatched indices) and every other shape
compiles and sets up successfully, then the returned failure-index list
contains exactly the indices in `K`, and the digest set is exactly the set of
digests of the non-faulting shapes (in particular it contains the digest of
every non-faulting shape): per-shape faults are confined to their own index
and never abort the rest of the run. -/
theorem build_vk_map_fault_isolation {Program : Type}
    (P : ProverModel Program) (core_shape_config : CoreShapeConfig)
    (recursion_shape_config : RecursionShapeConfig)
    (reduce_batch_size : Nat) (K : Finset Nat)
    (hK : ∀ iw ∈ subset_shapes (all_shapes_list core_shape_config
        recursion_shape_config reduce_batch_size) none,
      (shapeDigest P (merkleHeight (all_shapes_list core_shape_config
          recursion_shape_config reduce_batch_size).length) iw.2 = none ↔
        iw.1 ∈ K))
    (hKidx : ∀ i ∈ K, ∃ iw ∈ subset_shapes (all_shapes_list core_shape_config
        recursion_shape_config reduce_batch_size) none, iw.1 = i) :
    ((build_vk_map P core_shape_config recursion_shape_config
        reduce_batch_size false none).2.1).toFinset = K ∧
    (build_vk_map P core_shape_config recursion_shape_config reduce_batch_size
        false none).1 =
      (((subset_shapes (all_shapes_list core_shape_config
            recursion_shape_config reduce_batch_size) none).filter
          (fun iw => decide (iw.1 ∉ K))).filterMap
        (fun iw => shapeDigest P (merkleHeight (all_shapes_list
          core_shape_config recursion_shape_config reduce_batch_size).length)
          iw.2)).toFinset := by
  constructor
  · apply Finset.ext
    intro i
    rw [List.mem_toFinset]
    have hmem : i ∈ (build_vk_map P core_shape_config recursion_shape_config
        reduce_batch_size false none).2.1 ↔
        ∃ iw ∈ subset_shapes (all_shapes_list core_shape_config
          recursion_shape_config reduce_batch_size) none, iw.1 = i ∧
          shapeDigest P (merkleHeight (all_shapes_list core_shape_config
            recursion_shape_config reduce_batch_size).length) iw.2 = none :=
      mem_panic_index_list P _ _ i
    rw [hmem]
    constructor
    · rintro ⟨iw, hiw, hi, hnone⟩
      exact hi ▸ (hK iw hiw).mp hnone
    · intro hiK
      obtain ⟨iw, hiw, hi⟩ := hKidx i hiK
      exact ⟨iw, hiw, hi, (hK iw hiw).mpr (hi ▸ hiK)⟩
  · have h2 : (build_vk_map P core_shape_config recursion_shape_config
        reduce_batch_size false none).1 =
        ((subset_shapes (all_shapes_list core_shape_config
            recursion_shape_config reduce_batch_size) none).filterMap
          (fun iw => shapeDigest P (merkleHeight (all_shapes_list
            core_shape_config recursion_shape_config
            reduce_batch_size).length) iw.2)).toFinset :=
      vk_digest_set_map P _ _
    rw [h2]
    congr 1
    refine (filterMap_filter_eq _ _ _ ?_).symm
    intro iw hiw hfalse
    refine (hK iw hiw).mpr ?_
    revert hfalse
    by_cases hmem : iw.1 ∈ K <;> simp [hmem]

/-- Witness for C2: a two-shape catalog where exactly the shape at index 0
faults. -/
theorem build_vk_map_fault_isolation_witness :
    (∀ iw ∈ subset_shapes (all_shapes_list wCore emptyRec 1) none,
      (shapeDigest faultProver (merkleHeight (all_shapes_list wCore emptyRec
          1).length) iw.2 = none ↔ iw.1 ∈ ({0} : Finset Nat))) ∧
    (∀ i ∈ ({0} : Finset Nat),
      ∃ iw ∈ subset_shapes (all_shapes_list wCore emptyRec 1) none,
        iw.1 = i) ∧
    (((build_vk_map faultProver wCore emptyRec 1 false none).2.1).toFinset =
        ({0} : Finset Nat) ∧
      (build_vk_map faultProver wCore emptyRec 1 false none).1 =
        (((subset_shapes (all_shapes_list wCore emptyRec 1) none).filter
            (fun iw => decide (iw.1 ∉ ({0} : Finset Nat)))).filterMap
          (fun iw => shapeDigest faultProver
            (merkleHeight (all_shapes_list wCore emptyRec 1).length)
            iw.2)).toFinset) :=
  ⟨by decide, by decide,
    build_vk_map_fault_isolation faultProver wCore emptyRec 1 ({0} : Finset Nat)
      (by decide) (by decide)⟩

/-- C3: for every explicit index list `S` passed to `build_vk_map`, exactly
the shapes whose enumeration index in the sorted full catalog lies in `S` are
dispatched (their index list is `range n` filtered by membership in `S`);
when all of them compile, the returned digest set covers exactly those shapes
(one digest produced per dispatched shape); and the returned Merkle height is
computed from the full catalog size `n`, not from `|S|`. -/
theorem build_vk_map_subset_restriction {Program : Type}
    (P : ProverModel Program) (core_shape_config : CoreShapeConfig)
    (recursion_shape_config : RecursionShapeConfig)
    (reduce_batch_size : Nat) (S : List Nat)
    (hok : ∀ iw ∈ subset_shapes (all_shapes_list core_shape_config
        recursion_shape_config reduce_batch_size) (some S),
      shapeDigest P (merkleHeight (all_shapes_list core_shape_config
        recursion_shape_config reduce_batch_size).length) iw.2 ≠ none) :
    ((subset_shapes (all_shapes_list core_shape_config recursion_shape_config
        reduce_batch_size) (some S)).map Prod.fst =
      (List.range (all_shapes_list core_shape_config recursion_shape_config
        reduce_batch_size).length).filter (fun i => S.contains i)) ∧
    ((build_vk_map P core_shape_config recursion_shape_config
        reduce_batch_size false (some S)).1 =
      ((subset_shapes (all_shapes_list core_shape_config
          recursion_shape_config reduce_batch_size) (some S)).filterMap
        (fun iw => shapeDigest P (merkleHeight (all_shapes_list
          core_shape_config recursion_shape_config reduce_batch_size).length)
          iw.2)).toFinset) ∧
    (((subset_shapes (all_shapes_list core_shape_config
          recursion_shape_config reduce_batch_size) (some S)).filterMap
        (fun iw => shapeDigest P (merkleHeight (all_shapes_list
          core_shape_config recursion_shape_config reduce_batch_size).length)
          iw.2)).length =
      (subset_shapes (all_shapes_list core_shape_config
        recursion_shape_config reduce_batch_size) (some S)).length) ∧
    ((build_vk_map P core_shape_config recursion_shape_config
        reduce_batch_size false (some S)).2.2 =
      merkleHeight (all_shapes_list core_shape_config recursion_shape_config
        reduce_batch_size).length) := by
  refine ⟨?_, vk_digest_set_map P _ _,
    filterMap_length_of_ne_none _ _ hok, rfl⟩
  unfold subset_shapes
  rw [← List.enum_map_fst (all_shapes_list core_shape_config
    recursion_shape_config reduce_batch_size), List.filter_map]
  rfl

/-- Witness for C3 at a two-shape catalog restricted to the index list
`[0]`. -/
theorem build_vk_map_subset_restriction_witness :
    (∀ iw ∈ subset_shapes (all_shapes_list wCore emptyRec 1) (some [0]),
      shapeDigest constProver
        (merkleHeight (all_shapes_list wCore emptyRec 1).length) iw.2 ≠
        none) ∧
    (((subset_shapes (all_shapes_list wCore emptyRec 1) (some [0])).map
        Prod.fst =
      (List.range (all_shapes_list wCore emptyRec 1).length).filter
        (fun i => [0].contains i)) ∧
    ((build_vk_map constProver wCore emptyRec 1 false (some [0])).1 =
      ((subset_shapes (all_shapes_list wCore emptyRec 1) (some [0])).filterMap
        (fun iw => shapeDigest constProver (merkleHeight (all_shapes_list
          wCore emptyRec 1).length) iw.2)).toFinset) ∧
    (((subset_shapes (all_shapes_list wCore emptyRec 1) (some [0])).filterMap
        (fun iw => shapeDigest constProver (merkleHeight (all_shapes_list
          wCore emptyRec 1).length) iw.2)).length =
      (subset_shapes (all_shapes_list wCore emptyRec 1) (some [0])).length) ∧
    ((build_vk_map constProver wCore emptyRec 1 false (some [0])).2.2 =
      merkleHeight (all_shapes_list wCore emptyRec 1).length)) :=
  ⟨by decide,
    build_vk_map_subset_restriction constProver wCore emptyRec 1 [0]
      (by decide)⟩

/-- C4: with `dummy = true`, `build_vk_map` never invokes the real
compilation or setup collaborators (its result is identical for any two
prover collaborators, and also ignores the index restriction), and — when the
configuration generates pairwise-distinct shapes, no more than the field size
of them — it returns the digest set whose elements are, for each catalog
index `i`, `DIGEST_SIZE` copies of the field element encoding `i`, with
cardinality equal to the number of shapes in the full catalog. -/
theorem build_vk_map_dummy_mode {Program1 Program2 : Type}
    (P1 : ProverModel Program1) (P2 : ProverModel Program2)
    (core_shape_config : CoreShapeConfig)
    (recursion_shape_config : RecursionShapeConfig)
    (reduce_batch_size : Nat) (indices1 indices2 : Option (List Nat))
    (hnodup : (ZKMProofShape.generate core_shape_config recursion_shape_config
      reduce_batch_size).Nodup)
    (hsize : (ZKMProofShape.generate core_shape_config recursion_shape_config
      reduce_batch_size).length ≤ KB_P) :
    build_vk_map P1 core_shape_config recursion_shape_config
        reduce_batch_size true indices1 =
      build_vk_map P2 core_shape_config recursion_shape_config
        reduce_batch_size true indices2 ∧
    (build_vk_map P1 core_shape_config recursion_shape_config
        reduce_batch_size true indices1).1 =
      ((List.range (ZKMProofShape.generate core_shape_config
          recursion_shape_config reduce_batch_size).length).map
        dummy_digest).toFinset ∧
    (build_vk_map P1 core_shape_config recursion_shape_config
        reduce_batch_size true indices1).1.card =
      (all_shapes_list core_shape_config recursion_shape_config
        reduce_batch_size).length := by
  have hset : (build_vk_map P1 core_shape_config recursion_shape_config
      reduce_batch_size true indices1).1 =
      ((List.range (ZKMProofShape.generate core_shape_config
          recursion_shape_config reduce_batch_size).length).map
        dummy_digest).toFinset := by
    show ((ZKMProofShape.dummy_vk_map core_shape_config recursion_shape_config
        reduce_batch_size).map Prod.fst).toFinset = _
    rw [dummy_keys_eq]
  refine ⟨rfl, hset, ?_⟩
  rw [hset]
  have hinj : ∀ x ∈ List.range (ZKMProofShape.generate core_shape_config
      recursion_shape_config reduce_batch_size).length,
      ∀ y ∈ List.range (ZKMProofShape.generate core_shape_config
        recursion_shape_config reduce_batch_size).length,
      dummy_digest x = dummy_digest y → x = y := by
    intro x hx y hy hxy
    rw [List.mem_range] at hx hy
    exact dummy_digest_inj (by omega) (by omega) hxy
  have hnod : ((List.range (ZKMProofShape.generate core_shape_config
      recursion_shape_config reduce_batch_size).length).map
      dummy_digest).Nodup :=
    List.Nodup.map_on hinj (List.nodup_range _)
  rw [List.toFinset_card_of_nodup hnod, List.length_map, List.length_range,
    all_shapes_list, btreeOfList_length, List.dedup_eq_self.mpr hnodup]

/-- Witness for C4: a two-shape catalog in dummy mode, compared across two
different prover collaborators and two different index restrictions. -/
theorem build_vk_map_dummy_mode_witness :
    (ZKMProofShape.generate wCore emptyRec 1).Nodup ∧
    (ZKMProofShape.generate wCore emptyRec 1).length ≤ KB_P ∧
    (build_vk_map constProver wCore emptyRec 1 true none =
        build_vk_map faultProver wCore emptyRec 1 true (some [0]) ∧
      (build_vk_map constProver wCore emptyRec 1 true none).1 =
        ((List.range (ZKMProofShape.generate wCore emptyRec 1).length).map
          dummy_digest).toFinset ∧
      (build_vk_map constProver wCore emptyRec 1 true none).1.card =
        (all_shapes_list wCore emptyRec 1).length) :=
  ⟨by decide, by decide,
    build_vk_map_dummy_mode constProver faultProver wCore emptyRec 1 none
      (some [0]) (by decide) (by decide)⟩

/-- C6 counterexample: in a real run over a two-shape catalog whose two
shapes set up to one and the same digest, the deduplicated digest set has
cardinality 1, so `ceil(log2(max(1, n)))` over the digest count is 0, yet
`build_vk_map` returns height 1 — the height is not computed from the unique
digest count. -/
theorem build_vk_map_height_not_digest_count :
    (build_vk_map constProver wCore emptyRec 1 false none).2.2 ≠
      Nat.clog 2 (max 1
        (build_vk_map constProver wCore emptyRec 1 false none).1.card) := by
  have h1 : (build_vk_map constProver wCore emptyRec 1 false none).2.2 = 1 :=
    by decide
  have h2 : (build_vk_map constProver wCore emptyRec 1 false none).1.card =
      1 := by decide
  rw [h1, h2]
  simp [Nat.clog_one_right]

/-- C6 (amended): in a real (non-dummy) run, the returned Merkle-tree height
equals `ceil(log2(max(1, n)))` where `n` is the number of shapes in the full
deduplicated shape catalog (shapes.rs line 176) — not the cardinality of the
final deduplicated digest set. -/
theorem build_vk_map_height_from_catalog {Program : Type}
    (P : ProverModel Program) (core_shape_config : CoreShapeConfig)
    (recursion_shape_config : RecursionShapeConfig)
    (reduce_batch_size : Nat) (indices : Option (List Nat)) :
    (build_vk_map P core_shape_config recursion_shape_config
        reduce_batch_size false indices).2.2 =
      Nat.clog 2 (max 1 (all_shapes_list core_shape_config
        recursion_shape_config reduce_batch_size).length) :=
  merkleHeight_eq_clog_max _

/-- C7 counterexample: a configuration with 4 leaf shapes and 2 one-way shape
combinations (`c7Core`, `c7Rec`, `reduce_batch_size = 1`) yields a catalog
with 4 Recursion, 2 Compress, 2 Deferred and 2 Shrink shapes — total 10 and
Merkle height 4 — because `generate` derives the Deferred and the Shrink
shapes from the same two 1-way combinations as the Compress shapes; the
claimed counts (1 Deferred, 1 Shrink, total 8, height 3) are refuted. -/
theorem generate_worked_example_counts :
    (all_shapes_list c7Core c7Rec 1).countP isRecursionShape = 4 ∧
    (all_shapes_list c7Core c7Rec 1).countP isCompressShape = 2 ∧
    (all_shapes_list c7Core c7Rec 1).countP isDeferredShape = 2 ∧
    (all_shapes_list c7Core c7Rec 1).countP isShrinkShape = 2 ∧
    (all_shapes_list c7Core c7Rec 1).length = 10 ∧
    merkleHeight (all_shapes_list c7Core c7Rec 1).length = 4 ∧
    ¬ ((all_shapes_list c7Core c7Rec 1).countP isDeferredShape = 1 ∧
        (all_shapes_list c7Core c7Rec 1).countP isShrinkShape = 1 ∧
        (all_shapes_list c7Core c7Rec 1).length = 8 ∧
        merkleHeight (all_shapes_list c7Core c7Rec 1).length = 3) := by
  decide

/-- C7 (amended): for any configuration whose core shape configuration yields
4 pairwise-distinct leaf shapes and whose recursion shape configuration
yields 2 distinct one-way shape combinations, with `reduce_batch_size = 1`,
the catalog produced by `ZKMProofShape::generate` contains 4 Recursion
shapes, 2 Compress shapes, 2 Deferred shapes and 2 Shrink shapes, for a total
catalog size of 10 and a Merkle height of 4. -/
theorem generate_worked_example_amended (core_shape_config : CoreShapeConfig)
    (recursion_shape_config : RecursionShapeConfig)
    (s1 s2 s3 s4 a b : OrderedShape)
    (hcore : core_shape_config.all_shapes = [s1, s2, s3, s4])
    (hrec : recursion_shape_config.get_all_shape_combinations 1 = [[a], [b]])
    (h12 : s1 ≠ s2) (h13 : s1 ≠ s3) (h14 : s1 ≠ s4) (h23 : s2 ≠ s3)
    (h24 : s2 ≠ s4) (h34 : s3 ≠ s4) (hab : a ≠ b) :
    (all_shapes_list core_shape_config recursion_shape_config
      1).countP isRecursionShape = 4 ∧
    (all_shapes_list core_shape_config recursion_shape_config
      1).countP isCompressShape = 2 ∧
    (all_shapes_list core_shape_config recursion_shape_config
      1).countP isDeferredShape = 2 ∧
    (all_shapes_list core_shape_config recursion_shape_config
      1).countP isShrinkShape = 2 ∧
    (all_shapes_list core_shape_config recursion_shape_config 1).length =
      10 ∧
    merkleHeight (all_shapes_list core_shape_config recursion_shape_config
      1).length = 4 := by
  have hgen : ZKMProofShape.generate core_shape_config
      recursion_shape_config 1 =
      [ZKMProofShape.Recursion s1, ZKMProofShape.Recursion s2,
       ZKMProofShape.Recursion s3, ZKMProofShape.Recursion s4,
       ZKMProofShape.Compress [a], ZKMProofShape.Compress [b],
       ZKMProofShape.Deferred a, ZKMProofShape.Deferred b,
       ZKMProofShape.Shrink a, ZKMProofShape.Shrink b] := by
    simp [ZKMProofShape.generate, hcore, hrec, popUnwrap,
      show List.range' 1 1 = [1] from rfl]
  have hnodup : (ZKMProofShape.generate core_shape_config
      recursion_shape_config 1).Nodup := by
    rw [hgen]
    simp [List.nodup_cons, List.mem_cons, h12, h13, h14, h23, h24, h34, hab]
  have hperm : (all_shapes_list core_shape_config recursion_shape_config
      1).Perm (ZKMProofShape.generate core_shape_config
        recursion_shape_config 1) := by
    have hp := btreeOfList_perm_dedup (ZKMProofShape.generate
      core_shape_config recursion_shape_config 1)
    rwa [List.dedup_eq_self.mpr hnodup] at hp
  have hlen : (all_shapes_list core_shape_config recursion_shape_config
      1).length = 10 := by
    rw [hperm.length_eq, hgen]
    rfl
  refine ⟨?_, ?_, ?_, ?_, hlen, by rw [hlen]; decide⟩ <;>
    rw [hperm.countP_eq, hgen] <;>
    simp [List.countP_cons, isRecursionShape, isCompressShape,
      isDeferredShape, isShrinkShape]

/-- Witness for the amended C7 at the concrete worked-example
configuration. -/
theorem generate_worked_example_amended_witness :
    (c7Core.all_shapes = [tshape 1, tshape 2, tshape 3, tshape 4] ∧
      c7Rec.get_all_shape_combinations 1 = [[tshape 10], [tshape 11]] ∧
      tshape 1 ≠ tshape 2 ∧ tshape 10 ≠ tshape 11) ∧
    ((all_shapes_list c7Core c7Rec 1).countP isRecursionShape = 4 ∧
    (all_shapes_list c7Core c7Rec 1).countP isCompressShape = 2 ∧
    (all_shapes_list c7Core c7Rec 1).countP isDeferredShape = 2 ∧
    (all_shapes_list c7Core c7Rec 1).countP isShrinkShape = 2 ∧
    (all_shapes_list c7Core c7Rec 1).length = 10 ∧
    merkleHeight (all_shapes_list c7Core c7Rec 1).length = 4) :=
  ⟨⟨by decide, by decide, by decide, by decide⟩,
    generate_worked_example_amended c7Core c7Rec (tshape 1) (tshape 2)
      (tshape 3) (tshape 4) (tshape 10) (tshape 11) (by decide) (by decide)
      (by decide) (by decide) (by decide) (by decide) (by decide) (by decide)
      (by decide)⟩
